import Mathlib

/-
Verification of the cue-sdk-rust FFI marshalling and callback layer.

The Rust source is embedded shallowly:

* machine integers `i32`/`u32` are modelled as `Int`/`Nat`; the `as usize`
  cast of an `i32` is modelled two's-complement into a 64-bit `Nat`;
* a raw pointer to an array is modelled as `Option (List a)`: `none` is the
  null pointer, `some mem` is a valid pointer whose allocation holds the
  elements `mem`; `slice_from_raw_parts (p, n)` is `mem.take n`, and reading
  more elements than the allocation holds is modelled as a crash outcome;
* fixed-size `c_char` buffers and C strings are modelled as their byte
  sequences (`List Nat`);
* `f64` fields are carried as uninterpreted bit patterns (`F64`): the
  embedded code paths only copy them, never compute with them;
* fallible Rust functions returning `Result` become `Except`.
-/

-- ---------------------------------------------------------------------------
-- Shared helpers
-- ---------------------------------------------------------------------------

/-- Projection of an `Except` onto its ok value. -/
def exceptOk {e a : Type} : Except e a → Option a
  | .ok v => some v
  | .error _ => none

/-- Projection of an `Except` onto its error value. -/
def exceptError {e a : Type} : Except e a → Option e
  | .ok _ => none
  | .error err => some err

/-- Equality of `Except` values is decidable when both component types have
decidable equality (needed to evaluate concrete marshalling results). -/
instance exceptDecidableEq {e a : Type} [DecidableEq e] [DecidableEq a] :
    DecidableEq (Except e a) := fun x y =>
  match x, y with
  | .ok v1, .ok v2 =>
    if h : v1 = v2 then isTrue (by subst h; rfl)
    else isFalse (fun hc => by cases hc; exact h rfl)
  | .error e1, .error e2 =>
    if h : e1 = e2 then isTrue (by subst h; rfl)
    else isFalse (fun hc => by cases hc; exact h rfl)
  | .ok _, .error _ => isFalse (fun hc => by cases hc)
  | .error _, .ok _ => isFalse (fun hc => by cases hc)

/-- The collection loop shared by `channels_from_ffi`, `Channel::from_ffi` and
`CueSdkClient::get_all_devices` in the source: iterate over per-element
results in order, pushing `Ok` values into one vector and `Err` values into
another. -/
def collectOksErrs {e a : Type} : List (Except e a) → List a × List e
  | [] => ([], [])
  | r :: rest =>
    let p := collectOksErrs rest
    match r with
    | .ok v => (v :: p.1, p.2)
    | .error err => (p.1, err :: p.2)

/-- Two's-complement `i32 as usize` cast on a 64-bit target. -/
def asUsize (i : Int) : Nat := (i.emod (2 ^ 64)).toNat

/-- Uninterpreted `f64` bit pattern; the embedded code only copies these. -/
structure F64 where
  bits : Nat
deriving Repr, DecidableEq

-- ---------------------------------------------------------------------------
-- src/device/channel/device.rs
-- ---------------------------------------------------------------------------

/-- Embedding of `ffi::CorsairChannelDeviceInfo` (a channel sub-device's raw
type code and led count). -/
structure CorsairChannelDeviceInfo where
  type_ : Nat
  deviceLedCount : Int
deriving Repr, DecidableEq

/-- Embedding of `ChannelDeviceType` from `src/device/channel/device.rs`. -/
inductive ChannelDeviceType
  | HdFan | SpFan | LlFan | MlFan | Strip | Dap | Pump | QlFan | WaterBlock | SpProFan
deriving Repr, DecidableEq

/-- Embedding of the derived `ChannelDeviceType::from_u32` (FromPrimitive);
the discriminant values are the `ffi::CorsairChannelDeviceType_CCDT_*`
constants of the vendor header (CCDT_Invalid = 0, then HD_Fan..SPPRO_Fan). -/
def ChannelDeviceType.from_u32 : Nat → Option ChannelDeviceType
  | 1 => some .HdFan
  | 2 => some .SpFan
  | 3 => some .LlFan
  | 4 => some .MlFan
  | 5 => some .Strip
  | 6 => some .Dap
  | 7 => some .Pump
  | 8 => some .QlFan
  | 9 => some .WaterBlock
  | 10 => some .SpProFan
  | _ => none

/-- Embedding of `ChannelDevice` from `src/device/channel/device.rs`. -/
structure ChannelDevice where
  device_type : Option ChannelDeviceType
  device_led_count : Nat
deriving Repr, DecidableEq

/-- Embedding of `ChannelDeviceFromFfiError`. -/
structure ChannelDeviceFromFfiError where
  device_led_count : Int
deriving Repr, DecidableEq

/-- Embedding of `ChannelDevice::from_ffi`. -/
def ChannelDevice.from_ffi (d : CorsairChannelDeviceInfo) :
    Except ChannelDeviceFromFfiError ChannelDevice :=
  if d.deviceLedCount < 0 then
    .error ⟨d.deviceLedCount⟩
  else
    .ok ⟨ChannelDeviceType.from_u32 d.type_, d.deviceLedCount.toNat⟩

-- ---------------------------------------------------------------------------
-- src/device/channel/mod.rs
-- ---------------------------------------------------------------------------

/-- Embedding of `ffi::CorsairChannelInfo`: a total led count, a device count
and a pointer to an array of `CorsairChannelDeviceInfo` (`none` = null). -/
structure CorsairChannelInfo where
  totalLedsCount : Int
  devicesCount : Int
  devices : Option (List CorsairChannelDeviceInfo)
deriving Repr, DecidableEq

/-- Embedding of `Channel` from `src/device/channel/mod.rs`. -/
structure Channel where
  total_led_count : Nat
  devices : List ChannelDevice
deriving Repr, DecidableEq

/-- Embedding of `ChannelFromFfiError`. -/
inductive ChannelFromFfiError
  | InvalidLedCount (count : Int)
  | InvalidNumDevices (count : Int)
  | DevicesNullPtr
  | ChannelDeviceErrors (errs : List ChannelDeviceFromFfiError)
deriving Repr, DecidableEq

/-- Embedding of `Channel::from_ffi`.  The `try_into().unwrap()` on
`totalLedsCount` is `Int.toNat`, which cannot fail because the preceding
negativity check already returned an error. -/
def Channel.from_ffi (channel_info : CorsairChannelInfo) :
    Except ChannelFromFfiError Channel :=
  if channel_info.totalLedsCount < 0 then
    .error (.InvalidLedCount channel_info.totalLedsCount)
  else
    let total_led_count := channel_info.totalLedsCount.toNat
    let num_devices := channel_info.devicesCount
    if num_devices = 0 then
      .ok ⟨total_led_count, []⟩
    else if num_devices < 0 then
      .error (.InvalidNumDevices num_devices)
    else
      match channel_info.devices with
      | none => .error .DevicesNullPtr
      | some mem =>
        let infos := mem.take num_devices.toNat
        let p := collectOksErrs (infos.map ChannelDevice.from_ffi)
        if ¬ p.2.isEmpty then
          .error (.ChannelDeviceErrors p.2)
        else
          .ok ⟨total_led_count, p.1⟩

-- ---------------------------------------------------------------------------
-- src/device/channel/channels.rs
-- ---------------------------------------------------------------------------

/-- Embedding of `ffi::CorsairChannelsInfo`: a channel count and a pointer to
an array of `CorsairChannelInfo` (`none` = null). -/
structure CorsairChannelsInfo where
  channelsCount : Int
  channels : Option (List CorsairChannelInfo)
deriving Repr, DecidableEq

/-- Embedding of `ChannelsFromFfiError`. -/
inductive ChannelsFromFfiError
  | InvalidChannelsCount (count : Int)
  | NullChannelsPointer
  | ChannelFromFFIErrors (errs : List ChannelFromFfiError)
deriving Repr, DecidableEq

/-- Embedding of `channels_from_ffi` from `src/device/channel/channels.rs`. -/
def channels_from_ffi (info : CorsairChannelsInfo) :
    Except ChannelsFromFfiError (List Channel) :=
  if info.channelsCount = 0 then
    .ok []
  else if info.channelsCount < 0 then
    .error (.InvalidChannelsCount info.channelsCount)
  else
    match info.channels with
    | none => .error .NullChannelsPointer
    | some mem =>
      let cs := mem.take info.channelsCount.toNat
      let p := collectOksErrs (cs.map Channel.from_ffi)
      if p.2.isEmpty then
        .ok p.1
      else
        .error (.ChannelFromFFIErrors p.2)

-- ---------------------------------------------------------------------------
-- src/internal/c_utils.rs and src/device/id.rs
-- ---------------------------------------------------------------------------

/-- Marker for Rust's `std::str::Utf8Error`.  Its diagnostic payload
(`valid_up_to`, `error_len`) is not observed by any embedded code path and is
not modelled. -/
inductive Utf8Error
  | mk
deriving Repr, DecidableEq

/-- DFA step set for strict UTF-8 as enforced by Rust's `str::from_utf8`
(RFC 3629: no overlong forms, no surrogates, nothing above U+10FFFF).
`k` is the number of continuation bytes still expected; the next of them must
lie in `[lo, hi]`, all later ones in `[0x80, 0xBF]`. -/
def utf8ValidAux : List Nat → Nat → Nat → Nat → Bool
  | [], k, _, _ => k = 0
  | b :: rest, 0, _, _ =>
    if b ≤ 0x7F then utf8ValidAux rest 0 0 0
    else if 0xC2 ≤ b && b ≤ 0xDF then utf8ValidAux rest 1 0x80 0xBF
    else if b = 0xE0 then utf8ValidAux rest 2 0xA0 0xBF
    else if (0xE1 ≤ b && b ≤ 0xEC) || b = 0xEE || b = 0xEF then utf8ValidAux rest 2 0x80 0xBF
    else if b = 0xED then utf8ValidAux rest 2 0x80 0x9F
    else if b = 0xF0 then utf8ValidAux rest 3 0x90 0xBF
    else if 0xF1 ≤ b && b ≤ 0xF3 then utf8ValidAux rest 3 0x80 0xBF
    else if b = 0xF4 then utf8ValidAux rest 3 0x80 0x8F
    else false
  | b :: rest, k + 1, lo, hi =>
    if lo ≤ b && b ≤ hi then utf8ValidAux rest k 0x80 0xBF
    else false

/-- Strict UTF-8 validity of a byte sequence, as checked by Rust's
`str::from_utf8`. -/
def utf8Valid (bytes : List Nat) : Bool := utf8ValidAux bytes 0 0 0

/-- Reading a C string: the bytes up to (excluding) the first NUL.  The code
assumes a terminating NUL exists inside the buffer it reads from. -/
def cStrBytes (bytes : List Nat) : List Nat := bytes.takeWhile (· ≠ 0)

/-- Embedding of `try_c_char_ptr_to_str` (src/internal/c_utils.rs): a null
pointer yields `none`, otherwise the pointed-to C string is read and UTF-8
checked; the decoded `&str` is modelled by its byte sequence. -/
def try_c_char_ptr_to_str (ptr : Option (List Nat)) : Except Utf8Error (Option (List Nat)) :=
  match ptr with
  | none => .ok none
  | some bytes =>
    let s := cStrBytes bytes
    if utf8Valid s then .ok (some s) else .error .mk

/-- Embedding of `DeviceIdFromFfiError` (src/device/id.rs). -/
structure DeviceIdFromFfiError where
  error : Utf8Error
deriving Repr, DecidableEq

/-- Embedding of `DeviceId` (src/device/id.rs): the decoded id string,
modelled by its byte sequence. -/
structure DeviceId where
  s : List Nat
deriving Repr, DecidableEq

/-- Embedding of `DeviceId::from_ffi` over the 128-byte `c_char` array: the
array pointer is never null, so the `unwrap` of the optional decode cannot
fail. -/
def DeviceId.from_ffi (ffi_id : List Nat) : Except DeviceIdFromFfiError DeviceId :=
  match try_c_char_ptr_to_str (some ffi_id) with
  | .error e => .error ⟨e⟩
  | .ok maybe_s =>
    match maybe_s with
    | some s => .ok ⟨s⟩
    | none => .ok ⟨[]⟩    -- unreachable: the pointer passed in is non-null

-- ---------------------------------------------------------------------------
-- src/device/device_type.rs, src/device/layout.rs, src/device/capabilities.rs
-- ---------------------------------------------------------------------------

/-- Embedding of `DeviceType` (src/device/device_type.rs). -/
inductive DeviceType
  | Mouse | Keyboard | Headset | MouseMat | HeadsetStand | CommanderPro
  | LightingNodePro | MemoryModule | Cooler | Motherboard | GraphicsCard
deriving Repr, DecidableEq

/-- Embedding of the derived `DeviceType::from_u32`; discriminants are the
`ffi::CorsairDeviceType_CDT_*` constants (CDT_Unknown = 0, then
Mouse..GraphicsCard = 1..11). -/
def DeviceType.from_u32 : Nat → Option DeviceType
  | 1 => some .Mouse
  | 2 => some .Keyboard
  | 3 => some .Headset
  | 4 => some .MouseMat
  | 5 => some .HeadsetStand
  | 6 => some .CommanderPro
  | 7 => some .LightingNodePro
  | 8 => some .MemoryModule
  | 9 => some .Cooler
  | 10 => some .Motherboard
  | 11 => some .GraphicsCard
  | _ => none

/-- Embedding of `DeviceType::from_ffi`. -/
def DeviceType.from_ffi (device_type : Nat) : Option DeviceType :=
  DeviceType.from_u32 device_type

/-- Embedding of `PhysicalLayout` (src/device/layout.rs). -/
inductive PhysicalLayout
  | KeyboardUs | KeyboardUk | KeyboardBr | KeyboardJp | KeyboardKr
  | MouseLedCount1 | MouseLedCount2 | MouseLedCount3 | MouseLedCount4
deriving Repr, DecidableEq

/-- Embedding of the derived `PhysicalLayout::from_u32`; discriminants are the
`ffi::CorsairPhysicalLayout_CPL_*` constants (CPL_Invalid = 0, then
US..KR = 1..5 and Zones1..Zones4 = 6..9). -/
def PhysicalLayout.from_u32 : Nat → Option PhysicalLayout
  | 1 => some .KeyboardUs
  | 2 => some .KeyboardUk
  | 3 => some .KeyboardBr
  | 4 => some .KeyboardJp
  | 5 => some .KeyboardKr
  | 6 => some .MouseLedCount1
  | 7 => some .MouseLedCount2
  | 8 => some .MouseLedCount3
  | 9 => some .MouseLedCount4
  | _ => none

/-- Embedding of `LogicalLayout` (src/device/layout.rs). -/
inductive LogicalLayout
  | KeyboardUsInt | KeyboardNa | KeyboardEu | KeyboardUk | KeyboardBe
  | KeyboardBr | KeyboardCh | KeyboardCn | KeyboardDe | KeyboardEs
  | KeyboardFr | KeyboardIt | KeyboardNd | KeyboardRu | KeyboardJp
  | KeyboardKr | KeyboardTw | KeyboardMex
deriving Repr, DecidableEq

/-- Embedding of the derived `LogicalLayout::from_u32`; discriminants are the
`ffi::CorsairLogicalLayout_CLL_*` constants (CLL_Invalid = 0, then
US_Int..MEX = 1..18). -/
def LogicalLayout.from_u32 : Nat → Option LogicalLayout
  | 1 => some .KeyboardUsInt
  | 2 => some .KeyboardNa
  | 3 => some .KeyboardEu
  | 4 => some .KeyboardUk
  | 5 => some .KeyboardBe
  | 6 => some .KeyboardBr
  | 7 => some .KeyboardCh
  | 8 => some .KeyboardCn
  | 9 => some .KeyboardDe
  | 10 => some .KeyboardEs
  | 11 => some .KeyboardFr
  | 12 => some .KeyboardIt
  | 13 => some .KeyboardNd
  | 14 => some .KeyboardRu
  | 15 => some .KeyboardJp
  | 16 => some .KeyboardKr
  | 17 => some .KeyboardTw
  | 18 => some .KeyboardMex
  | _ => none

/-- Embedding of `DeviceLayout` (src/device/layout.rs). -/
inductive DeviceLayout
  | Keyboard (physical_layout : PhysicalLayout) (logical_layout : LogicalLayout)
  | Mouse (physical_layout : PhysicalLayout)
deriving Repr, DecidableEq

/-- Embedding of `DeviceLayout::from_ffi_values`. -/
def DeviceLayout.from_ffi_values (physical_layout logical_layout : Nat) :
    Option DeviceLayout :=
  let physical := PhysicalLayout.from_u32 physical_layout
  let logical := LogicalLayout.from_u32 logical_layout
  match physical with
  | none => none
  | some pl =>
    match logical with
    | some ll => some (.Keyboard pl ll)
    | none => some (.Mouse pl)

/-- Embedding of `DeviceCapabilities` (src/device/capabilities.rs). -/
structure DeviceCapabilities where
  lighting : Bool
  property_lookup : Bool
deriving Repr, DecidableEq

/-- Embedding of `DeviceCapabilities::from_ffi`; `CDC_Lighting = 1` and
`CDC_PropertyLookup = 2` are the `ffi::CorsairDeviceCaps_CDC_*` constants. -/
def DeviceCapabilities.from_ffi (bitmask : Int) : DeviceCapabilities :=
  { lighting := bitmask.land 1 ≠ 0
    property_lookup := bitmask.land 2 ≠ 0 }

-- ---------------------------------------------------------------------------
-- src/errors.rs
-- ---------------------------------------------------------------------------

/-- Embedding of `CueSdkError` (src/errors.rs). -/
inductive CueSdkError
  | ServerNotFound | NoControl | ProtocolHandshakeMissing
  | IncompatibleProtocol | InvalidArguments
deriving Repr, DecidableEq

-- ---------------------------------------------------------------------------
-- src/device/info.rs
-- ---------------------------------------------------------------------------

/-- Embedding of `ffi::CorsairDeviceInfo` as consumed by `src/device/info.rs`
(the v3 vendor struct): the raw type code, the model-name C string pointer
(`none` = null), raw layout codes, the capability bitmask, the led count, the
nested channels header and the fixed 128-byte device id buffer. -/
structure CorsairDeviceInfo where
  type_ : Nat
  model : Option (List Nat)
  physicalLayout : Nat
  logicalLayout : Nat
  capsMask : Int
  ledsCount : Int
  channels : CorsairChannelsInfo
  deviceId : List Nat
deriving Repr, DecidableEq

/-- Embedding of `CueDeviceInfoFromFfiError` (src/device/info.rs). -/
inductive CueDeviceInfoFromFfiError
  | NullPointer
  | StringConversionError (field : String) (error : Utf8Error)
  | NullPointerField (field : String)
  | InvalidLedsCount (count : Int)
  | ChannelsError (e : ChannelsFromFfiError)
deriving Repr, DecidableEq

/-- Embedding of `CueDeviceInfo` (src/device/info.rs); strings are byte
sequences. -/
structure CueDeviceInfo where
  id : DeviceId
  device_type : Option DeviceType
  model : List Nat
  layout : Option DeviceLayout
  capabilities : DeviceCapabilities
  leds_count : Nat
  channels : List Channel
deriving Repr, DecidableEq

/-- Embedding of `CueDeviceInfo::from_ffi`; the argument is the
`*mut ffi::CorsairDeviceInfo` returned by the SDK (`none` = null). -/
def CueDeviceInfo.from_ffi (device_info : Option CorsairDeviceInfo) :
    Except CueDeviceInfoFromFfiError CueDeviceInfo :=
  match device_info with
  | none => .error .NullPointer
  | some info =>
    match DeviceId.from_ffi info.deviceId with
    | .error e => .error (.StringConversionError "deviceId" e.error)
    | .ok id =>
      let device_type := DeviceType.from_ffi info.type_
      match try_c_char_ptr_to_str info.model with
      | .error e => .error (.StringConversionError "model" e)
      | .ok none => .error (.NullPointerField "model")
      | .ok (some model) =>
        let layout := DeviceLayout.from_ffi_values info.physicalLayout info.logicalLayout
        if info.ledsCount < 0 then
          .error (.InvalidLedsCount info.ledsCount)
        else
          let leds_count := info.ledsCount.toNat
          match channels_from_ffi info.channels with
          | .error e => .error (.ChannelsError e)
          | .ok channels =>
            let capabilities := DeviceCapabilities.from_ffi info.capsMask
            .ok ⟨id, device_type, model, layout, capabilities, leds_count, channels⟩

-- ---------------------------------------------------------------------------
-- src/led/mod.rs (the parts reached from device enumeration)
-- ---------------------------------------------------------------------------

/-- Embedding of `LedId` (src/led/id.rs): the raw `u32` led id.  The
`From<u32>` mapping onto the grouped led-id enums is a pure lookup table that
no embedded code path inspects, so the id is carried raw. -/
structure LedId where
  raw : Nat
deriving Repr, DecidableEq

/-- Embedding of the old-design `LedPosition` (src/led/mod.rs): four `f64`
extents, carried as uninterpreted bits. -/
structure LedPosition where
  height : F64
  left : F64
  top : F64
  width : F64
deriving Repr, DecidableEq

/-- Embedding of the old-design `LedColor` (src/led/mod.rs). -/
structure LedColor where
  red : Nat
  green : Nat
  blue : Nat
deriving Repr, DecidableEq

/-- Embedding of `CueLed` (src/led/mod.rs). -/
structure CueLed where
  id : LedId
  position : LedPosition
  device_index : Nat
  last_checked_color : Option LedColor
  last_buffed_color : Option LedColor
deriving Repr, DecidableEq

/-- Embedding of `ffi::CorsairLedPosition` (v3 vendor struct). -/
structure CorsairLedPositionV3 where
  ledId : Nat
  top : F64
  left : F64
  height : F64
  width : F64
deriving Repr, DecidableEq

/-- Embedding of `ffi::CorsairLedPositions` (v3 vendor struct): the reported
led count and the allocation behind the `pLedPosition` pointer. -/
structure CorsairLedPositions where
  numberOfLed : Int
  pLedPosition : List CorsairLedPositionV3
deriving Repr, DecidableEq

/-- Embedding of `CueLed::with_device_data_from_ffi` (src/led/mod.rs). -/
def CueLed.with_device_data_from_ffi (device_index : Nat) (led : CorsairLedPositionV3) :
    CueLed :=
  { id := ⟨led.ledId⟩
    position := ⟨led.height, led.left, led.top, led.width⟩
    device_index := device_index
    last_checked_color := none
    last_buffed_color := none }

-- ---------------------------------------------------------------------------
-- src/device/mod.rs
-- ---------------------------------------------------------------------------

/-- Embedding of `GetLedPositionsError` (src/device/mod.rs). -/
structure GetLedPositionsError where
  e : Option CueSdkError
deriving Repr, DecidableEq

/-- Embedding of `CueDeviceFromDeviceInfoAndIndexError` (src/device/mod.rs). -/
structure CueDeviceFromDeviceInfoAndIndexError where
  e : GetLedPositionsError
deriving Repr, DecidableEq

/-- Embedding of `CueDevice` (src/device/mod.rs). -/
structure CueDevice where
  device_info : CueDeviceInfo
  device_index : Nat
  leds : List CueLed
deriving Repr, DecidableEq

/-- Outcome of running a piece of the embedded Rust that may bounds-check
panic or read past the end of a native allocation (undefined behavior). -/
inductive RunOutcome (a : Type)
  | ok (v : a)
  | panicked
  | oobRead
deriving Repr, DecidableEq

/-- Embedding of `get_leds_for_device_index` (src/device/mod.rs).  `ledsPtr`
is the `CorsairGetLedPositionsByDeviceIndex` result (`none` = null) and
`lastError` the `CorsairGetLastError` answer.  The code builds a slice of
`numberOfLed as usize` elements from the `pLedPosition` allocation and
iterates it; asking for more elements than the allocation holds is an
out-of-bounds read. -/
def get_leds_for_device_index (ledsPtr : Option CorsairLedPositions)
    (lastError : Option CueSdkError) (index : Nat) :
    RunOutcome (Except GetLedPositionsError (List CueLed)) :=
  match ledsPtr with
  | none => .ok (.error ⟨lastError⟩)
  | some lp =>
    let n := asUsize lp.numberOfLed
    if n ≤ lp.pLedPosition.length then
      .ok (.ok ((lp.pLedPosition.take n).map (CueLed.with_device_data_from_ffi index)))
    else
      .oobRead

/-- Embedding of `CueDevice::from_device_info_and_index` (src/device/mod.rs). -/
def CueDevice.from_device_info_and_index (ledsPtr : Option CorsairLedPositions)
    (lastError : Option CueSdkError) (device_index : Nat) (device_info : CueDeviceInfo) :
    RunOutcome (Except CueDeviceFromDeviceInfoAndIndexError CueDevice) :=
  match get_leds_for_device_index ledsPtr lastError device_index with
  | .ok (.ok leds) => .ok (.ok ⟨device_info, device_index, leds⟩)
  | .ok (.error e) => .ok (.error ⟨e⟩)
  | .panicked => .panicked
  | .oobRead => .oobRead

-- ---------------------------------------------------------------------------
-- src/sdk.rs
-- ---------------------------------------------------------------------------

/-- Embedding of `GetDeviceAtIndexError` (src/sdk.rs). -/
inductive GetDeviceAtIndexError
  | DeviceInfoFromFfiError (e : CueDeviceInfoFromFfiError)
  | CueDeviceFromDeviceInfoAndIndexError (e : CueDeviceFromDeviceInfoAndIndexError)
deriving Repr, DecidableEq

/-- Embedding of `GetAllDevicesError` (src/sdk.rs). -/
inductive GetAllDevicesError
  | GetDeviceCountError (e : Option CueSdkError)
  | GetDeviceAtIndexErrors (errs : List GetDeviceAtIndexError)
deriving Repr, DecidableEq

/-- Embedding of `SubscribeForEventsError` (src/sdk.rs). -/
inductive SubscribeForEventsError
  | CueSdkError (e : Option CueSdkError)
  | AlreadyHaveAnActiveEventSubscriptionError
deriving Repr, DecidableEq

/-- Embedding of `UnsubscribeFromEventsError` (src/sdk.rs). -/
inductive UnsubscribeFromEventsError
  | CueSdkError (e : Option CueSdkError)
  | NoActiveSubscriptionError
deriving Repr, DecidableEq

/-- Embedding of `ReleaseExclusiveAccessError` (src/sdk.rs). -/
inductive ReleaseExclusiveAccessError
  | CueSdkError (e : Option CueSdkError)
  | DoNotHaveExclusiveAccessError
deriving Repr, DecidableEq

/-- The book-keeping state of a `CueSdkClient` (its two `AtomicBool` fields). -/
structure CueSdkClientState where
  has_exclusive_access : Bool
  is_subscribed_to_events : Bool
deriving Repr, DecidableEq

/-- External SDK registration / teardown functions the `CueSdkClient` code can
invoke; traces of these record which native calls were made, in order. -/
inductive FfiCall
  | corsairSubscribeForEvents
  | corsairUnsubscribeFromEvents
  | corsairReleaseControl
deriving Repr, DecidableEq

/-- Embedding of `CueSdkClient::get_device_count`: `rawCount` is the C int
returned by `CorsairGetDeviceCount` and `lastError` the
`CorsairGetLastError` answer. -/
def CueSdkClient.get_device_count (rawCount : Int) (lastError : Option CueSdkError) :
    Except (Option CueSdkError) Nat :=
  if rawCount < 0 then .error lastError else .ok rawCount.toNat

/-- The per-device FFI environment behind `CueSdkClient::get_device_at`:
what `CorsairGetDeviceInfo` and `CorsairGetLedPositionsByDeviceIndex` return
for each index, and the current `CorsairGetLastError` answer. -/
structure CueClientFfiEnv where
  deviceInfoPtr : Nat → Option CorsairDeviceInfo
  ledPositionsPtr : Nat → Option CorsairLedPositions
  lastError : Option CueSdkError

/-- Embedding of `CueSdkClient::get_device_at`. -/
def CueSdkClient.get_device_at (env : CueClientFfiEnv) (index : Nat) :
    RunOutcome (Except GetDeviceAtIndexError CueDevice) :=
  match CueDeviceInfo.from_ffi (env.deviceInfoPtr index) with
  | .error e => .ok (.error (.DeviceInfoFromFfiError e))
  | .ok device_info =>
    match CueDevice.from_device_info_and_index (env.ledPositionsPtr index)
        env.lastError index device_info with
    | .ok (.ok d) => .ok (.ok d)
    | .ok (.error e) => .ok (.error (.CueDeviceFromDeviceInfoAndIndexError e))
    | .panicked => .panicked
    | .oobRead => .oobRead

/-- The `for index in 0..device_count` loop of `get_all_devices`: run the
per-index lookups in order, stopping at the first crash. -/
def runDeviceLoop (device_at : Nat → RunOutcome (Except GetDeviceAtIndexError CueDevice)) :
    List Nat → RunOutcome (List (Except GetDeviceAtIndexError CueDevice))
  | [] => .ok []
  | i :: rest =>
    match device_at i with
    | .ok r =>
      match runDeviceLoop device_at rest with
      | .ok rs => .ok (r :: rs)
      | .panicked => .panicked
      | .oobRead => .oobRead
    | .panicked => .panicked
    | .oobRead => .oobRead

/-- Embedding of `CueSdkClient::get_all_devices`, parametrised by the
`CorsairGetDeviceCount` result and the behaviour of `get_device_at`. -/
def CueSdkClient.get_all_devices (rawCount : Int) (lastError : Option CueSdkError)
    (device_at : Nat → RunOutcome (Except GetDeviceAtIndexError CueDevice)) :
    RunOutcome (Except GetAllDevicesError (List CueDevice)) :=
  match CueSdkClient.get_device_count rawCount lastError with
  | .error e => .ok (.error (.GetDeviceCountError e))
  | .ok device_count =>
    if device_count = 0 then .ok (.ok [])
    else
      match runDeviceLoop device_at (List.range device_count) with
      | .ok results =>
        let p := collectOksErrs results
        if p.2.isEmpty then .ok (.ok p.1)
        else .ok (.error (.GetDeviceAtIndexErrors p.2))
      | .panicked => .panicked
      | .oobRead => .oobRead

/-- Embedding of `CueSdkClient::subscribe_for_events`: `ffiOk` is the result
of the `CorsairSubscribeForEvents` call, `lastError` the
`CorsairGetLastError` answer.  Returns the new client state, the native calls
made, and the method's result. -/
def CueSdkClient.subscribe_for_events (st : CueSdkClientState) (ffiOk : Bool)
    (lastError : Option CueSdkError) :
    CueSdkClientState × List FfiCall × Except SubscribeForEventsError Unit :=
  if st.is_subscribed_to_events then
    (st, [], .error .AlreadyHaveAnActiveEventSubscriptionError)
  else if ffiOk then
    ({ st with is_subscribed_to_events := true }, [.corsairSubscribeForEvents], .ok ())
  else
    (st, [.corsairSubscribeForEvents], .error (.CueSdkError lastError))

/-- Embedding of `CueSdkClient::unsubscribe_from_events`, exactly as written
in src/sdk.rs lines 442..452: the early return fires when
`is_subscribed_to_events` loads `true`, and a successful external call stores
`true` into the flag. -/
def CueSdkClient.unsubscribe_from_events (st : CueSdkClientState) (ffiOk : Bool)
    (lastError : Option CueSdkError) :
    CueSdkClientState × List FfiCall × Except UnsubscribeFromEventsError Unit :=
  if st.is_subscribed_to_events then
    (st, [], .error .NoActiveSubscriptionError)
  else if ffiOk then
    ({ st with is_subscribed_to_events := true }, [.corsairUnsubscribeFromEvents], .ok ())
  else
    (st, [.corsairUnsubscribeFromEvents], .error (.CueSdkError lastError))

/-- Embedding of `CueSdkClient::release_exclusive_access_control`. -/
def CueSdkClient.release_exclusive_access_control (st : CueSdkClientState) (ffiOk : Bool)
    (lastError : Option CueSdkError) :
    CueSdkClientState × List FfiCall × Except ReleaseExclusiveAccessError Unit :=
  if ¬ st.has_exclusive_access then
    (st, [], .error .DoNotHaveExclusiveAccessError)
  else if ffiOk then
    ({ st with has_exclusive_access := true }, [.corsairReleaseControl], .ok ())
  else
    (st, [.corsairReleaseControl], .error (.CueSdkError lastError))

/-- Embedding of `impl Drop for CueSdkClient`: release exclusive access if
held, then unsubscribe if subscribed, swallowing both results.  Returns the
final state and the native calls made. -/
def CueSdkClient.drop (st : CueSdkClientState) (ffiOkRelease ffiOkUnsub : Bool)
    (lastError : Option CueSdkError) : CueSdkClientState × List FfiCall :=
  let s1 :=
    if st.has_exclusive_access then
      let r := CueSdkClient.release_exclusive_access_control st ffiOkRelease lastError
      (r.1, r.2.1)
    else (st, [])
  if s1.1.is_subscribed_to_events then
    let r := CueSdkClient.unsubscribe_from_events s1.1 ffiOkUnsub lastError
    (r.1, s1.2 ++ r.2.1)
  else s1

-- ---------------------------------------------------------------------------
-- src/event/subscription.rs (the client-design subscription object)
-- ---------------------------------------------------------------------------

/-- Embedding of `EventSubscription::unsubscribe` (src/event/subscription.rs)
followed by the `Drop` of the consumed `self`: each closes the channel (not
modelled; it touches no native state) and calls
`CueSdkClient::unsubscribe_from_events` on the borrowed client.  Returns the
final client state, every native call made across both steps, and the
explicit call's result (the drop's result is discarded by `let _ = …`). -/
def EventSubscription.unsubscribe_then_drop (st : CueSdkClientState)
    (ffiOkFirst ffiOkSecond : Bool) (lastError : Option CueSdkError) :
    CueSdkClientState × List FfiCall × Except UnsubscribeFromEventsError Unit :=
  let r1 := CueSdkClient.unsubscribe_from_events st ffiOkFirst lastError
  let r2 := CueSdkClient.unsubscribe_from_events r1.1 ffiOkSecond lastError
  (r2.1, r1.2.1 ++ r2.2.1, r1.2.2)

-- ---------------------------------------------------------------------------
-- The session-design half of the crate (src/error.rs, src/session.rs,
-- src/callback.rs, src/event.rs, src/device.rs, src/led.rs), which compiles
-- against the v4 vendor header.  It lives in its own namespace because it
-- redefines several names of the client-design half.
-- ---------------------------------------------------------------------------

namespace SessionApi

/-- Embedding of `SdkError` (src/error.rs). -/
inductive SdkError
  | NotConnected | NoControl | IncompatibleProtocol | InvalidArguments
  | InvalidOperation | DeviceNotFound | NotAllowed
  | Unknown (code : Nat)
deriving Repr, DecidableEq

/-- Embedding of `error::check`; the numerals are the
`ffi::CorsairError_CE_*` constants of the v4 vendor header
(CE_Success = 0 through CE_NotAllowed = 7). -/
def check : Nat → Except SdkError Unit
  | 0 => .ok ()
  | 1 => .error .NotConnected
  | 2 => .error .NoControl
  | 3 => .error .IncompatibleProtocol
  | 4 => .error .InvalidArguments
  | 5 => .error .InvalidOperation
  | 6 => .error .DeviceNotFound
  | 7 => .error .NotAllowed
  | other => .error (.Unknown other)

/-- Embedding of `ffi::CorsairVersion`. -/
structure CorsairVersion where
  major : Int
  minor : Int
  patch : Int
deriving Repr, DecidableEq

/-- Embedding of `Version` (src/session.rs). -/
structure Version where
  major : Int
  minor : Int
  patch : Int
deriving Repr, DecidableEq

/-- Embedding of `Version::from_ffi`. -/
def Version.from_ffi (v : CorsairVersion) : Version :=
  ⟨v.major, v.minor, v.patch⟩

/-- Embedding of `ffi::CorsairSessionDetails`. -/
structure CorsairSessionDetails where
  clientVersion : CorsairVersion
  serverVersion : CorsairVersion
  serverHostVersion : CorsairVersion
deriving Repr, DecidableEq

/-- Embedding of `SessionDetails` (src/session.rs). -/
structure SessionDetails where
  client_version : Version
  server_version : Version
  server_host_version : Version
deriving Repr, DecidableEq

/-- Embedding of `SessionDetails::from_ffi`. -/
def SessionDetails.from_ffi (d : CorsairSessionDetails) : SessionDetails :=
  ⟨Version.from_ffi d.clientVersion, Version.from_ffi d.serverVersion,
    Version.from_ffi d.serverHostVersion⟩

/-- Embedding of `SessionState` (src/session.rs). -/
inductive SessionState
  | Invalid | Closed | Connecting | Timeout | ConnectionRefused
  | ConnectionLost | Connected
  | Unknown (raw : Nat)
deriving Repr, DecidableEq

/-- Embedding of `SessionState::from_ffi`; the numerals are the
`ffi::CorsairSessionState_CSS_*` constants of the v4 vendor header
(CSS_Invalid = 0 through CSS_Connected = 6). -/
def SessionState.from_ffi : Nat → SessionState
  | 0 => .Invalid
  | 1 => .Closed
  | 2 => .Connecting
  | 3 => .Timeout
  | 4 => .ConnectionRefused
  | 5 => .ConnectionLost
  | 6 => .Connected
  | other => .Unknown other

-- ---- src/callback.rs: the process-wide session slot --------------------

/-- A session-state channel sender, identified abstractly; the slot holds at
most one. -/
structure SessionSender where
  id : Nat
deriving Repr, DecidableEq

/-- Data sent through the session-state channel (`SessionStateChange` in
src/callback.rs): the raw state code and the raw details. -/
structure SessionStateChange where
  state : Nat
  details : CorsairSessionDetails
deriving Repr, DecidableEq

/-- Embedding of `install_session_sender`: the slot's previous content is
replaced. -/
def install_session_sender (_slot : Option SessionSender) (tx : SessionSender) :
    Option SessionSender :=
  some tx

/-- Embedding of `clear_session_sender`: empties the slot, whatever it held. -/
def clear_session_sender (_slot : Option SessionSender) : Option SessionSender :=
  none

/-- Embedding of `session_state_trampoline`: reads the process-wide slot; if a
sender is installed, delivers the payload to it, otherwise does nothing.
`delivered` models everything sent so far, tagged by receiving sender. -/
def session_state_trampoline (slot : Option SessionSender)
    (delivered : List (SessionSender × SessionStateChange))
    (event_data : SessionStateChange) : List (SessionSender × SessionStateChange) :=
  match slot with
  | some tx => delivered ++ [(tx, event_data)]
  | none => delivered

-- ---- src/session.rs: Drop and wait_for_connection ----------------------

/-- The two statements of `impl Drop for Session`, in source order. -/
inductive DropStep
  | clearSessionSender
  | corsairDisconnect
deriving Repr, DecidableEq

/-- Embedding of the body of `impl Drop for Session` (src/session.rs
lines 531..544) as the sequence of its statements. -/
def Session.drop_body : List DropStep := [.clearSessionSender, .corsairDisconnect]

/-- Run teardown steps over the session slot, recording for each step the
slot contents at the moment the step begins.  `clearSessionSender` empties the
slot; `corsairDisconnect` is an external call that does not touch the slot. -/
def execTeardown (slot : Option SessionSender) :
    List DropStep → List (DropStep × Option SessionSender)
  | [] => []
  | .clearSessionSender :: rest =>
    (.clearSessionSender, slot) :: execTeardown (clear_session_sender slot) rest
  | .corsairDisconnect :: rest =>
    (.corsairDisconnect, slot) :: execTeardown slot rest

/-- Outcome of one `state_rx.recv_timeout(remaining)` call inside
`wait_for_connection`: a message, a timeout, or a disconnected channel. -/
inductive RecvOutcome
  | msg (change : SessionStateChange)
  | timeout
  | disconnected
deriving Repr, DecidableEq

/-- Embedding of the loop of `Session::wait_for_connection`.  Time is in
nanoseconds-like units; `deadline` is fixed at entry.  The channel trace
gives, for each `recv_timeout` call, the instant it returned and its outcome;
`none` means the trace was exhausted (a real `recv_timeout` always returns,
so the theorems only concern `some` results). -/
def wait_for_connection_loop (deadline : Nat) :
    Nat → List (Nat × RecvOutcome) → Option (Except SdkError SessionDetails)
  | now, trace =>
    let remaining := deadline - now
    if remaining = 0 then some (.error .NotConnected)
    else
      match trace with
      | [] => none
      | (t, out) :: rest =>
        match out with
        | .msg change =>
          match SessionState.from_ffi change.state with
          | .Connected => some (.ok (SessionDetails.from_ffi change.details))
          | .Connecting => wait_for_connection_loop deadline t rest
          | _ => some (.error .NotConnected)
        | .timeout => some (.error .NotConnected)
        | .disconnected => some (.error .NotConnected)

/-- Embedding of `Session::wait_for_connection`: the deadline is computed once
at entry as `now0 + timeout` and every iteration measures the remaining time
against it. -/
def Session.wait_for_connection (now0 timeout : Nat)
    (trace : List (Nat × RecvOutcome)) : Option (Except SdkError SessionDetails) :=
  wait_for_connection_loop (now0 + timeout) now0 trace

-- ---- src/event.rs: MacroKeyId, Event, EventSubscription ----------------

/-- Embedding of `MacroKeyId` (src/event.rs). -/
inductive MacroKeyId
  | Key1 | Key2 | Key3 | Key4 | Key5 | Key6 | Key7 | Key8 | Key9 | Key10
  | Key11 | Key12 | Key13 | Key14 | Key15 | Key16 | Key17 | Key18 | Key19 | Key20
deriving Repr, DecidableEq

/-- Embedding of `MacroKeyId::from_ffi`; the numerals are the
`ffi::CorsairMacroKeyId_CMKI_*` constants of the v4 vendor header
(CMKI_Invalid = 0, CMKI_1..CMKI_20 = 1..20). -/
def MacroKeyId.from_ffi : Nat → Option MacroKeyId
  | 1 => some .Key1
  | 2 => some .Key2
  | 3 => some .Key3
  | 4 => some .Key4
  | 5 => some .Key5
  | 6 => some .Key6
  | 7 => some .Key7
  | 8 => some .Key8
  | 9 => some .Key9
  | 10 => some .Key10
  | 11 => some .Key11
  | 12 => some .Key12
  | 13 => some .Key13
  | 14 => some .Key14
  | 15 => some .Key15
  | 16 => some .Key16
  | 17 => some .Key17
  | 18 => some .Key18
  | 19 => some .Key19
  | 20 => some .Key20
  | _ => none

/-- Embedding of the session-design `DeviceId` (src/device.rs): the raw
128-byte `c_char` array, carried as bytes. -/
structure DeviceId where
  raw : List Nat
deriving Repr, DecidableEq

/-- Embedding of the session-design `DeviceId::from_ffi` (a plain copy). -/
def DeviceId.from_ffi (raw : List Nat) : DeviceId := ⟨raw⟩

/-- Embedding of `ffi::CorsairDeviceConnectionStatusChangedEvent`: the payload
behind the union's first pointer arm. -/
structure CorsairDeviceConnectionStatusChangedEvent where
  deviceId : List Nat
  isConnected : Bool
deriving Repr, DecidableEq

/-- Embedding of `ffi::CorsairKeyEvent`: the payload behind the union's second
pointer arm. -/
structure CorsairKeyEvent where
  deviceId : List Nat
  keyId : Nat
  isPressed : Bool
deriving Repr, DecidableEq

/-- Embedding of `ffi::CorsairEvent`: the discriminant and the union, modelled
as both readings of the union bits.  `Event::from_ffi` only ever dereferences
the arm selected by the discriminant. -/
structure CorsairEvent where
  id : Nat
  deviceConnectionStatusChangedEvent : CorsairDeviceConnectionStatusChangedEvent
  keyEvent : CorsairKeyEvent
deriving Repr, DecidableEq

/-- Embedding of `Event` (src/event.rs). -/
inductive Event
  | DeviceConnectionChanged (device_id : DeviceId) (is_connected : Bool)
  | KeyEvent (device_id : DeviceId) (key_id : MacroKeyId) (is_pressed : Bool)
deriving Repr, DecidableEq

/-- Embedding of `Event::from_ffi`; the numerals are the
`ffi::CorsairEventId_CEI_*` constants of the v4 vendor header (CEI_Invalid =
0, CEI_DeviceConnectionStatusChangedEvent = 1, CEI_KeyEvent = 2). -/
def Event.from_ffi (raw : CorsairEvent) : Option Event :=
  match raw.id with
  | 1 =>
    let inner := raw.deviceConnectionStatusChangedEvent
    some (.DeviceConnectionChanged (DeviceId.from_ffi inner.deviceId) inner.isConnected)
  | 2 =>
    let inner := raw.keyEvent
    match MacroKeyId.from_ffi inner.keyId with
    | none => none
    | some key_id => some (.KeyEvent (DeviceId.from_ffi inner.deviceId) key_id inner.isPressed)
  | _ => none

/-- Embedding of `event_trampoline` (src/callback.rs): the context sender is
modelled by the list of events it has delivered so far; an event that
`Event::from_ffi` cannot parse delivers nothing. -/
def event_trampoline (delivered : List Event) (event : CorsairEvent) : List Event :=
  match Event.from_ffi event with
  | some parsed => delivered ++ [parsed]
  | none => delivered

/-- External calls the session-design code makes. -/
inductive FfiCall
  | corsairSubscribeForEvents
  | corsairUnsubscribeFromEvents
deriving Repr, DecidableEq

/-- Embedding of `EventSubscription::new` (src/event.rs): unconditionally
calls `CorsairSubscribeForEvents` (whose raw error code is `code`) and checks
the result.  Returns the native calls made and the result (the subscription
value itself carries no further state relevant here). -/
def EventSubscription.new (code : Nat) : List FfiCall × Except SdkError Unit :=
  ([.corsairSubscribeForEvents], check code)

/-- Embedding of `Session::subscribe_for_events` (src/session.rs): builds a
channel (no native state) and delegates to `EventSubscription::new`.  The
`Session` struct holds no subscription flag, so every call behaves the
same. -/
def Session.subscribe_for_events (code : Nat) : List FfiCall × Except SdkError Unit :=
  EventSubscription.new code

/-- Embedding of `impl Drop for EventSubscription` (src/event.rs): one
unconditional `CorsairUnsubscribeFromEvents` call. -/
def EventSubscription.drop : List FfiCall := [.corsairUnsubscribeFromEvents]

-- ---- src/device.rs and src/led.rs: the get_devices marshalling tail ----

/-- Bitflags `DeviceType` (src/device.rs): a `u32` mask. -/
structure DeviceType where
  bits : Nat
deriving Repr, DecidableEq

/-- Embedding of `DeviceType::from_bits_truncate`: the flag set includes
`CDT_All = 0xFFFFFFFF`, so truncation keeps every `u32` bit. -/
def DeviceType.from_bits_truncate (raw : Nat) : DeviceType :=
  ⟨raw.land 0xFFFFFFFF⟩

/-- Embedding of `ffi::CorsairDeviceInfo` of the v4 vendor header, against
which src/device.rs compiles. -/
structure CorsairDeviceInfoV4 where
  type_ : Nat
  id : List Nat
  serial : List Nat
  model : List Nat
  ledCount : Int
  channelCount : Int
deriving Repr, DecidableEq

/-- Embedding of `c_char_array_to_string` (src/device.rs): bytes up to the
first NUL; `String::from_utf8_lossy` is modelled as the identity on the byte
sequence (the replacement-character substitution is not observable in any
claim). -/
def c_char_array_to_string (arr : List Nat) : List Nat :=
  arr.takeWhile (· ≠ 0)

/-- Embedding of the session-design `DeviceInfo` (src/device.rs). -/
structure DeviceInfo where
  device_type : DeviceType
  id : DeviceId
  serial : List Nat
  model : List Nat
  led_count : Int
  channel_count : Int
deriving Repr, DecidableEq

/-- Embedding of the session-design `DeviceInfo::from_ffi` (total: no
validation is performed). -/
def DeviceInfo.from_ffi (raw : CorsairDeviceInfoV4) : DeviceInfo :=
  { device_type := DeviceType.from_bits_truncate raw.type_
    id := DeviceId.from_ffi raw.id
    serial := c_char_array_to_string raw.serial
    model := c_char_array_to_string raw.model
    led_count := raw.ledCount
    channel_count := raw.channelCount }

/-- Embedding of `ffi::CorsairLedPosition` of the v4 vendor header. -/
structure CorsairLedPositionV4 where
  id : Nat
  cx : F64
  cy : F64
deriving Repr, DecidableEq

/-- Embedding of the session-design `LedPosition` (src/led.rs). -/
structure LedPosition where
  id : Nat
  cx : F64
  cy : F64
deriving Repr, DecidableEq

/-- Embedding of the session-design `LedPosition::from_ffi`. -/
def LedPosition.from_ffi (raw : CorsairLedPositionV4) : LedPosition :=
  ⟨raw.id, raw.cx, raw.cy⟩

/-- `CORSAIR_DEVICE_COUNT_MAX` of the v4 vendor header: the stack buffer size
in `Session::get_devices`. -/
def CORSAIR_DEVICE_COUNT_MAX : Nat := 64

/-- `CORSAIR_DEVICE_LEDCOUNT_MAX` of the v4 vendor header: the stack buffer
size in `Session::get_led_positions`. -/
def CORSAIR_DEVICE_LEDCOUNT_MAX : Nat := 512

/-- Embedding of the marshalling tail of `Session::get_devices`
(src/session.rs lines 219..223) after `CorsairGetDevices` returned success:
the SDK wrote the C int `count` back and the stack buffer holds `buf`
(`buf.length` slots, `CORSAIR_DEVICE_COUNT_MAX` at the call site).  The code
evaluates `buf[i]` for every `i` in `0 .. count as usize`; an index at or
beyond the buffer length is a Rust bounds-check panic. -/
def Session.get_devices_marshal (count : Int) (buf : List CorsairDeviceInfoV4) :
    RunOutcome (List DeviceInfo) :=
  let n := asUsize count
  if n ≤ buf.length then .ok ((buf.take n).map DeviceInfo.from_ffi)
  else .panicked

/-- Embedding of the marshalling tail of `Session::get_led_positions`
(src/session.rs lines 255..258), same shape as `get_devices` with a
`CORSAIR_DEVICE_LEDCOUNT_MAX`-slot buffer. -/
def Session.get_led_positions_marshal (count : Int) (buf : List CorsairLedPositionV4) :
    RunOutcome (List LedPosition) :=
  let n := asUsize count
  if n ≤ buf.length then .ok ((buf.take n).map LedPosition.from_ffi)
  else .panicked

end SessionApi

-- ---------------------------------------------------------------------------
-- Concrete scenario: getDevices with 3 reported devices, index 1 malformed
-- ---------------------------------------------------------------------------

/-- Model-name bytes ("model\0") for the scenario device records. -/
def c8ModelBytes : List Nat := [109, 111, 100, 101, 108, 0]

/-- Device-id bytes ("ABC\0") for the scenario device records. -/
def c8DeviceIdBytes : List Nat := [65, 66, 67, 0]

/-- A well-formed v3 device record as the native service would report it
(type 9 = CDT_Cooler, layouts 1 = CPL_US / CLL_US_Int, 4 leds, no
channels). -/
def c8GoodInfo : CorsairDeviceInfo :=
  { type_ := 9, model := some c8ModelBytes, physicalLayout := 1, logicalLayout := 1,
    capsMask := 0, ledsCount := 4, channels := ⟨0, none⟩, deviceId := c8DeviceIdBytes }

/-- The scenario record at index 1: reports a negative led count. -/
def c8BadInfo : CorsairDeviceInfo :=
  { c8GoodInfo with ledsCount := -5 }

/-- The scenario FFI environment: the device at index 1 reports a negative
led count, indices 0 and 2 are well-formed, every led-positions query
returns a valid empty block. -/
def c8Env : CueClientFfiEnv :=
  { deviceInfoPtr := fun i => if i = 1 then some c8BadInfo else some c8GoodInfo
    ledPositionsPtr := fun _ => some ⟨0, []⟩
    lastError := none }

/-- The owned device record the scenario conversion produces for a
well-formed index. -/
def c8Device (i : Nat) : CueDevice :=
  { device_info :=
      { id := ⟨[65, 66, 67]⟩, device_type := some .Cooler,
        model := [109, 111, 100, 101, 108],
        layout := some (.Keyboard .KeyboardUs .KeyboardUsInt),
        capabilities := ⟨false, false⟩, leds_count := 4, channels := [] }
    device_index := i
    leds := [] }

/-- The scenario run of `get_all_devices`: the external count call reports
3 devices. -/
def c8Result : RunOutcome (Except GetAllDevicesError (List CueDevice)) :=
  CueSdkClient.get_all_devices 3 none (CueSdkClient.get_device_at c8Env)

-- ---------------------------------------------------------------------------
-- Helper lemmas
-- ---------------------------------------------------------------------------

theorem collectOksErrs_eq {e a : Type} (rs : List (Except e a)) :
    collectOksErrs rs = (rs.filterMap exceptOk, rs.filterMap exceptError) := by
  induction rs with
  | nil => rfl
  | cons r rest ih =>
    cases r <;> simp [collectOksErrs, exceptOk, exceptError, ih]

theorem filterMap_exceptOk_length {e a : Type} (rs : List (Except e a))
    (h : rs.filterMap exceptError = []) :
    (rs.filterMap exceptOk).length = rs.length := by
  induction rs with
  | nil => simp
  | cons r rest ih =>
    cases r with
    | ok v =>
      simp only [List.filterMap_cons, exceptOk, exceptError] at h ⊢
      simp only [List.length_cons]
      exact congrArg (· + 1) (ih h)
    | error err => simp [List.filterMap_cons, exceptError] at h

-- ---------------------------------------------------------------------------
-- C1
-- ---------------------------------------------------------------------------

/-- C1: for every array-shaped `(count, pointer)` input to `channels_from_ffi`
(over `CorsairChannelsInfo`) and to `Channel::from_ffi` over a channel's
`devicesCount`/`devices` pair (reached once the channel's own
`totalLedsCount` field has validated, `0 ≤ t`): a zero count yields `Ok` with
an empty collection for every pointer value, null included (the pointer is
not inspected); a negative count yields the invalid-count error carrying
exactly that count; a positive count with a null pointer yields the
null-pointer error; otherwise the pointer is read as exactly `count` elements
and each is converted independently by the per-element converter. -/
theorem claim_C1_array_marshaller_contract :
    (∀ ptr, channels_from_ffi ⟨0, ptr⟩ = .ok []) ∧
    (∀ (count : Int) (ptr : Option (List CorsairChannelInfo)), count < 0 →
      channels_from_ffi ⟨count, ptr⟩ = .error (.InvalidChannelsCount count)) ∧
    (∀ (count : Int), 0 < count →
      channels_from_ffi ⟨count, none⟩ = .error .NullChannelsPointer) ∧
    (∀ (count : Int) (mem : List CorsairChannelInfo), 0 < count →
      channels_from_ffi ⟨count, some mem⟩ =
        (let rs := (mem.take count.toNat).map Channel.from_ffi
         if rs.filterMap exceptError = [] then .ok (rs.filterMap exceptOk)
         else .error (.ChannelFromFFIErrors (rs.filterMap exceptError)))) ∧
    (∀ (t : Int) (ptr : Option (List CorsairChannelDeviceInfo)), 0 ≤ t →
      Channel.from_ffi ⟨t, 0, ptr⟩ = .ok ⟨t.toNat, []⟩) ∧
    (∀ (t count : Int) (ptr : Option (List CorsairChannelDeviceInfo)),
      0 ≤ t → count < 0 →
      Channel.from_ffi ⟨t, count, ptr⟩ = .error (.InvalidNumDevices count)) ∧
    (∀ (t count : Int), 0 ≤ t → 0 < count →
      Channel.from_ffi ⟨t, count, none⟩ = .error .DevicesNullPtr) ∧
    (∀ (t count : Int) (mem : List CorsairChannelDeviceInfo), 0 ≤ t → 0 < count →
      Channel.from_ffi ⟨t, count, some mem⟩ =
        (let rs := (mem.take count.toNat).map ChannelDevice.from_ffi
         if rs.filterMap exceptError = [] then .ok ⟨t.toNat, rs.filterMap exceptOk⟩
         else .error (.ChannelDeviceErrors (rs.filterMap exceptError)))) := by
  refine ⟨?_, ?_, ?_, ?_, ?_, ?_, ?_, ?_⟩
  · intro ptr
    simp [channels_from_ffi]
  · intro count ptr h
    have h0 : ¬ count = 0 := by omega
    simp [channels_from_ffi, h0, h]
  · intro count h
    have h0 : ¬ count = 0 := by omega
    have h1 : ¬ count < 0 := by omega
    simp [channels_from_ffi, h0, h1]
  · intro count mem h
    have h0 : ¬ count = 0 := by omega
    have h1 : ¬ count < 0 := by omega
    simp only [channels_from_ffi, h0, if_false, h1, collectOksErrs_eq,
      List.isEmpty_iff]
  · intro t ptr ht
    have h1 : ¬ t < 0 := by omega
    simp [Channel.from_ffi, h1]
  · intro t count ptr ht hc
    have h1 : ¬ t < 0 := by omega
    have h0 : ¬ count = 0 := by omega
    simp [Channel.from_ffi, h1, h0, hc]
  · intro t count ht hc
    have h1 : ¬ t < 0 := by omega
    have h0 : ¬ count = 0 := by omega
    have h2 : ¬ count < 0 := by omega
    simp [Channel.from_ffi, h1, h0, h2]
  · intro t count mem ht hc
    have h1 : ¬ t < 0 := by omega
    have h0 : ¬ count = 0 := by omega
    have h2 : ¬ count < 0 := by omega
    simp only [Channel.from_ffi, h1, if_false, h0, h2, collectOksErrs_eq,
      List.isEmpty_iff]
    all_goals first
    | rfl
    | split <;> simp_all

/-- Witness for C1: each hypothesis-bearing conjunct applied at a concrete
input. -/
theorem claim_C1_array_marshaller_contract_witness :
    channels_from_ffi ⟨-2, some [⟨5, 0, none⟩]⟩ = .error (.InvalidChannelsCount (-2)) ∧
    channels_from_ffi ⟨3, none⟩ = .error .NullChannelsPointer ∧
    channels_from_ffi ⟨1, some [⟨5, 0, none⟩]⟩ =
      (let rs := (([⟨5, 0, none⟩] : List CorsairChannelInfo).take (1 : Int).toNat).map Channel.from_ffi
       if rs.filterMap exceptError = [] then .ok (rs.filterMap exceptOk)
       else .error (.ChannelFromFFIErrors (rs.filterMap exceptError))) ∧
    Channel.from_ffi ⟨7, 0, none⟩ = .ok ⟨(7 : Int).toNat, []⟩ ∧
    Channel.from_ffi ⟨7, -4, none⟩ = .error (.InvalidNumDevices (-4)) ∧
    Channel.from_ffi ⟨7, 2, none⟩ = .error .DevicesNullPtr ∧
    Channel.from_ffi ⟨7, 1, some [⟨3, 4⟩]⟩ =
      (let rs := (([⟨3, 4⟩] : List CorsairChannelDeviceInfo).take (1 : Int).toNat).map ChannelDevice.from_ffi
       if rs.filterMap exceptError = [] then .ok ⟨(7 : Int).toNat, rs.filterMap exceptOk⟩
       else .error (.ChannelDeviceErrors (rs.filterMap exceptError))) :=
  ⟨claim_C1_array_marshaller_contract.2.1 (-2) (some [⟨5, 0, none⟩]) (by decide),
   claim_C1_array_marshaller_contract.2.2.1 3 (by decide),
   claim_C1_array_marshaller_contract.2.2.2.1 1 [⟨5, 0, none⟩] (by decide),
   claim_C1_array_marshaller_contract.2.2.2.2.1 7 none (by decide),
   claim_C1_array_marshaller_contract.2.2.2.2.2.1 7 (-4) none (by decide) (by decide),
   claim_C1_array_marshaller_contract.2.2.2.2.2.2.1 7 2 (by decide) (by decide),
   claim_C1_array_marshaller_contract.2.2.2.2.2.2.2 7 1 [⟨3, 4⟩] (by decide) (by decide)⟩

-- ---------------------------------------------------------------------------
-- C2
-- ---------------------------------------------------------------------------

theorem runDeviceLoop_ok_length
    (f : Nat → RunOutcome (Except GetDeviceAtIndexError CueDevice))
    (l : List Nat) (rs : List (Except GetDeviceAtIndexError CueDevice))
    (h : runDeviceLoop f l = .ok rs) : rs.length = l.length := by
  induction l generalizing rs with
  | nil =>
    unfold runDeviceLoop at h
    injection h with h2
    subst h2
    rfl
  | cons i rest ih =>
    unfold runDeviceLoop at h
    cases hf : f i with
    | ok r =>
      rw [hf] at h
      cases hrec : runDeviceLoop f rest with
      | ok rs2 =>
        rw [hrec] at h
        injection h with h2
        subst h2
        simp [ih rs2 hrec]
      | panicked => rw [hrec] at h; cases h
      | oobRead => rw [hrec] at h; cases h
    | panicked => rw [hf] at h; cases h
    | oobRead => rw [hf] at h; cases h

/-- C2: for every batch of N native elements handed to a collection
marshaller — `channels_from_ffi` over N channel structs, `Channel::from_ffi`
over N channel-device structs, and `CueSdkClient::get_all_devices` over N
device indices (given the recorded per-index outcomes of its loop) — with
exactly K individual conversion failures: K = 0 yields `Ok` with all N
converted elements in input order, and K > 0 yields one aggregate error
containing exactly the K per-element errors in element order (never just the
first). -/
theorem claim_C2_batch_error_aggregation :
    (∀ (count : Int) (mem : List CorsairChannelInfo), 0 < count →
      mem.length = count.toNat →
      (((mem.map Channel.from_ffi).filterMap exceptError = [] →
         channels_from_ffi ⟨count, some mem⟩ =
           .ok ((mem.map Channel.from_ffi).filterMap exceptOk) ∧
         ((mem.map Channel.from_ffi).filterMap exceptOk).length = mem.length) ∧
       ((mem.map Channel.from_ffi).filterMap exceptError ≠ [] →
         channels_from_ffi ⟨count, some mem⟩ =
           .error (.ChannelFromFFIErrors ((mem.map Channel.from_ffi).filterMap exceptError))))) ∧
    (∀ (t count : Int) (mem : List CorsairChannelDeviceInfo), 0 ≤ t → 0 < count →
      mem.length = count.toNat →
      (((mem.map ChannelDevice.from_ffi).filterMap exceptError = [] →
         Channel.from_ffi ⟨t, count, some mem⟩ =
           .ok ⟨t.toNat, (mem.map ChannelDevice.from_ffi).filterMap exceptOk⟩ ∧
         ((mem.map ChannelDevice.from_ffi).filterMap exceptOk).length = mem.length) ∧
       ((mem.map ChannelDevice.from_ffi).filterMap exceptError ≠ [] →
         Channel.from_ffi ⟨t, count, some mem⟩ =
           .error (.ChannelDeviceErrors ((mem.map ChannelDevice.from_ffi).filterMap exceptError))))) ∧
    (∀ (n : Nat) (lastError : Option CueSdkError)
       (device_at : Nat → RunOutcome (Except GetDeviceAtIndexError CueDevice))
       (results : List (Except GetDeviceAtIndexError CueDevice)),
      0 < n → runDeviceLoop device_at (List.range n) = .ok results →
      ((results.filterMap exceptError = [] →
         CueSdkClient.get_all_devices (n : Int) lastError device_at =
           .ok (.ok (results.filterMap exceptOk)) ∧
         (results.filterMap exceptOk).length = n) ∧
       (results.filterMap exceptError ≠ [] →
         CueSdkClient.get_all_devices (n : Int) lastError device_at =
           .ok (.error (.GetDeviceAtIndexErrors (results.filterMap exceptError)))))) := by
  refine ⟨?_, ?_, ?_⟩
  · intro count mem hpos hlen
    have h0 : ¬ count = 0 := by omega
    have h1 : ¬ count < 0 := by omega
    have htake : mem.take count.toNat = mem := by
      rw [← hlen]
      exact List.take_length mem
    constructor
    · intro hK
      constructor
      · simp only [channels_from_ffi, h0, if_false, h1, htake, collectOksErrs_eq,
          List.isEmpty_iff, hK, if_pos]
      · have := filterMap_exceptOk_length (mem.map Channel.from_ffi) hK
        simpa using this
    · intro hK
      simp only [channels_from_ffi, h0, if_false, h1, htake, collectOksErrs_eq,
        List.isEmpty_iff, hK, if_neg, if_false]
  · intro t count mem ht hpos hlen
    have hnt : ¬ t < 0 := by omega
    have h0 : ¬ count = 0 := by omega
    have h1 : ¬ count < 0 := by omega
    have htake : mem.take count.toNat = mem := by
      rw [← hlen]
      exact List.take_length mem
    constructor
    · intro hK
      constructor
      · simp only [Channel.from_ffi, hnt, if_false, h0, h1, htake, collectOksErrs_eq,
          List.isEmpty_iff, hK, if_pos]
        simp [hK]
      · have := filterMap_exceptOk_length (mem.map ChannelDevice.from_ffi) hK
        simpa using this
    · intro hK
      simp only [Channel.from_ffi, hnt, if_false, h0, h1, htake, collectOksErrs_eq,
        List.isEmpty_iff]
      split
      · rfl
      · rename_i hcond
        exact absurd (not_not.mp hcond) hK
  · intro n lastError device_at results hpos hloop
    have hcount : CueSdkClient.get_device_count (n : Int) lastError = .ok n := by
      simp [CueSdkClient.get_device_count]
    have hn0 : ¬ n = 0 := by omega
    constructor
    · intro hK
      constructor
      · simp only [CueSdkClient.get_all_devices, hcount, hn0, if_false, hloop,
          collectOksErrs_eq, List.isEmpty_iff, hK, if_pos]
      · have h1 := filterMap_exceptOk_length results hK
        have h2 := runDeviceLoop_ok_length device_at (List.range n) results hloop
        simp [h1, h2]
    · intro hK
      simp only [CueSdkClient.get_all_devices, hcount, hn0, if_false, hloop,
        collectOksErrs_eq, List.isEmpty_iff]
      simp [hK]

/-- Witness for C2: each conjunct applied both to an all-success batch and to
a batch with failures, at concrete inputs. -/
theorem claim_C2_batch_error_aggregation_witness :
    (channels_from_ffi ⟨2, some [⟨5, 0, none⟩, ⟨-1, 0, none⟩]⟩ =
      .error (.ChannelFromFFIErrors
        ((([⟨5, 0, none⟩, ⟨-1, 0, none⟩] : List CorsairChannelInfo).map
          Channel.from_ffi).filterMap exceptError))) ∧
    (channels_from_ffi ⟨1, some [⟨5, 0, none⟩]⟩ =
      .ok ((([⟨5, 0, none⟩] : List CorsairChannelInfo).map
        Channel.from_ffi).filterMap exceptOk)) ∧
    (Channel.from_ffi ⟨9, 2, some [⟨3, 4⟩, ⟨3, -7⟩]⟩ =
      .error (.ChannelDeviceErrors
        ((([⟨3, 4⟩, ⟨3, -7⟩] : List CorsairChannelDeviceInfo).map
          ChannelDevice.from_ffi).filterMap exceptError))) ∧
    (CueSdkClient.get_all_devices ((1 : Nat) : Int) none
        (fun _ => .ok (.error (.DeviceInfoFromFfiError .NullPointer))) =
      .ok (.error (.GetDeviceAtIndexErrors
        (([.error (.DeviceInfoFromFfiError .NullPointer)] :
          List (Except GetDeviceAtIndexError CueDevice)).filterMap exceptError)))) :=
  ⟨((claim_C2_batch_error_aggregation.1 2 [⟨5, 0, none⟩, ⟨-1, 0, none⟩]
      (by decide) (by decide)).2 (by decide)),
   ((claim_C2_batch_error_aggregation.1 1 [⟨5, 0, none⟩]
      (by decide) (by decide)).1 (by decide)).1,
   ((claim_C2_batch_error_aggregation.2.1 9 2 [⟨3, 4⟩, ⟨3, -7⟩]
      (by decide) (by decide) (by decide)).2 (by decide)),
   ((claim_C2_batch_error_aggregation.2.2 1 none
      (fun _ => .ok (.error (.DeviceInfoFromFfiError .NullPointer)))
      [.error (.DeviceInfoFromFfiError .NullPointer)]
      (by decide) (by rfl)).2 (by decide))⟩

-- ---------------------------------------------------------------------------
-- C3
-- ---------------------------------------------------------------------------

/-- C3 (code-bug evidence): on a client that is subscribed
(`is_subscribed_to_events = true`, the state every successful
`subscribe_for_events` leaves behind), the guard of
`CueSdkClient::unsubscribe_from_events` fires the no-active-subscription
error instead of unregistering, so the explicit `EventSubscription::unsubscribe`
path (its call plus the drop that follows), and the `CueSdkClient::drop`
path, all make zero `CorsairUnsubscribeFromEvents` calls — never the exactly
one the claim requires. -/
theorem claim_C3_unregister_never_called :
    CueSdkClient.unsubscribe_from_events ⟨false, true⟩ true none =
      (⟨false, true⟩, [], .error .NoActiveSubscriptionError) ∧
    EventSubscription.unsubscribe_then_drop ⟨false, true⟩ true true none =
      (⟨false, true⟩, [], .error .NoActiveSubscriptionError) ∧
    CueSdkClient.drop ⟨false, true⟩ true true none = (⟨false, true⟩, []) ∧
    ((EventSubscription.unsubscribe_then_drop ⟨false, true⟩ true true none).2.1.count
      .corsairUnsubscribeFromEvents = 0) ∧
    ((CueSdkClient.drop ⟨false, true⟩ true true none).2.count
      .corsairUnsubscribeFromEvents = 0) := by
  refine ⟨rfl, rfl, rfl, rfl, rfl⟩

-- ---------------------------------------------------------------------------
-- C4
-- ---------------------------------------------------------------------------

/-- C4: the only `CorsairDisconnect` call site in the source is
`impl Drop for Session`; its body clears the process-wide session-state slot
first and only then calls the external disconnect, so on every teardown
execution (from any initial slot content) the slot is already empty when the
disconnect step begins — and an empty slot makes the session-state trampoline
a no-op. -/
theorem claim_C4_clear_completes_before_disconnect :
    (SessionApi.Session.drop_body =
      [.clearSessionSender, .corsairDisconnect]) ∧
    (∀ (slot0 s : Option SessionApi.SessionSender),
      (SessionApi.DropStep.corsairDisconnect, s) ∈
          SessionApi.execTeardown slot0 SessionApi.Session.drop_body →
      s = none) ∧
    (∀ (delivered : List (SessionApi.SessionSender × SessionApi.SessionStateChange))
       (ev : SessionApi.SessionStateChange),
      SessionApi.session_state_trampoline none delivered ev = delivered) := by
  refine ⟨rfl, ?_, ?_⟩
  · intro slot0 s h
    simp [SessionApi.execTeardown, SessionApi.Session.drop_body,
      SessionApi.clear_session_sender] at h
    exact h
  · intro delivered ev
    rfl

/-- Witness for C4 at a concrete initially-installed sender. -/
theorem claim_C4_clear_completes_before_disconnect_witness :
    ((SessionApi.DropStep.corsairDisconnect, (none : Option SessionApi.SessionSender)) ∈
      SessionApi.execTeardown (some ⟨5⟩) SessionApi.Session.drop_body) ∧
    ((none : Option SessionApi.SessionSender) = none) :=
  ⟨by decide,
   claim_C4_clear_completes_before_disconnect.2.1 (some ⟨5⟩) none (by decide)⟩

-- ---------------------------------------------------------------------------
-- C5
-- ---------------------------------------------------------------------------

/-- C5: `wait_for_connection` computes one deadline at entry; whenever the
remaining time has reached zero the loop returns the not-connected error;
receiving `Connecting` loops again against the same деadline; receiving
`Connected` returns the `SessionDetails` delivered with that change; any
other received state returns the not-connected error immediately,
independent of the rest of the trace; a receive timeout and a channel that
became disconnected (concurrent teardown) likewise unblock with the
not-connected error rather than hanging. -/
theorem claim_C5_wait_for_connection_loop :
    (∀ now0 timeout trace,
      SessionApi.Session.wait_for_connection now0 timeout trace =
        SessionApi.wait_for_connection_loop (now0 + timeout) now0 trace) ∧
    (∀ deadline now trace, deadline ≤ now →
      SessionApi.wait_for_connection_loop deadline now trace =
        some (.error .NotConnected)) ∧
    (∀ deadline now t rest change, now < deadline →
      SessionApi.SessionState.from_ffi change.state = .Connected →
      SessionApi.wait_for_connection_loop deadline now ((t, .msg change) :: rest) =
        some (.ok (SessionApi.SessionDetails.from_ffi change.details))) ∧
    (∀ deadline now t rest change, now < deadline →
      SessionApi.SessionState.from_ffi change.state = .Connecting →
      SessionApi.wait_for_connection_loop deadline now ((t, .msg change) :: rest) =
        SessionApi.wait_for_connection_loop deadline t rest) ∧
    (∀ deadline now t rest change, now < deadline →
      SessionApi.SessionState.from_ffi change.state ≠ .Connected →
      SessionApi.SessionState.from_ffi change.state ≠ .Connecting →
      SessionApi.wait_for_connection_loop deadline now ((t, .msg change) :: rest) =
        some (.error .NotConnected)) ∧
    (∀ deadline now t rest, now < deadline →
      SessionApi.wait_for_connection_loop deadline now ((t, .timeout) :: rest) =
        some (.error .NotConnected)) ∧
    (∀ deadline now t rest, now < deadline →
      SessionApi.wait_for_connection_loop deadline now ((t, .disconnected) :: rest) =
        some (.error .NotConnected)) := by
  refine ⟨?_, ?_, ?_, ?_, ?_, ?_, ?_⟩
  · intro now0 timeout trace
    rfl
  · intro deadline now trace h
    have hr : deadline - now = 0 := by omega
    unfold SessionApi.wait_for_connection_loop
    simp [hr]
  · intro deadline now t rest change h hs
    have hr : ¬ deadline - now = 0 := by omega
    unfold SessionApi.wait_for_connection_loop
    simp [hr, hs]
  · intro deadline now t rest change h hs
    have hr : ¬ deadline - now = 0 := by omega
    conv_lhs => unfold SessionApi.wait_for_connection_loop
    simp [hr, hs]
  · intro deadline now t rest change h h1 h2
    have hr : ¬ deadline - now = 0 := by omega
    unfold SessionApi.wait_for_connection_loop
    simp only [hr, if_false]
  · intro deadline now t rest h
    have hr : ¬ deadline - now = 0 := by omega
    unfold SessionApi.wait_for_connection_loop
    simp [hr]
  · intro deadline now t rest h
    have hr : ¬ deadline - now = 0 := by omega
    unfold SessionApi.wait_for_connection_loop
    simp [hr]

/-- Witness for C5 at concrete instants and state codes (6 = CSS_Connected,
2 = CSS_Connecting, 4 = CSS_ConnectionRefused). -/
theorem claim_C5_wait_for_connection_loop_witness :
    (SessionApi.wait_for_connection_loop 10 10
      [(11, .timeout)] = some (.error .NotConnected)) ∧
    (SessionApi.wait_for_connection_loop 10 3
      [(4, .msg ⟨6, ⟨⟨1, 0, 0⟩, ⟨2, 0, 0⟩, ⟨3, 0, 0⟩⟩⟩)] =
      some (.ok (SessionApi.SessionDetails.from_ffi ⟨⟨1, 0, 0⟩, ⟨2, 0, 0⟩, ⟨3, 0, 0⟩⟩))) ∧
    (SessionApi.wait_for_connection_loop 10 3
      [(4, .msg ⟨2, ⟨⟨1, 0, 0⟩, ⟨2, 0, 0⟩, ⟨3, 0, 0⟩⟩⟩)] =
      SessionApi.wait_for_connection_loop 10 4 []) ∧
    (SessionApi.wait_for_connection_loop 10 3
      [(4, .msg ⟨4, ⟨⟨1, 0, 0⟩, ⟨2, 0, 0⟩, ⟨3, 0, 0⟩⟩⟩)] =
      some (.error .NotConnected)) ∧
    (SessionApi.wait_for_connection_loop 10 3
      [(4, .timeout)] = some (.error .NotConnected)) ∧
    (SessionApi.wait_for_connection_loop 10 3
      [(4, .disconnected)] = some (.error .NotConnected)) :=
  ⟨claim_C5_wait_for_connection_loop.2.1 10 10 [(11, .timeout)] (by decide),
   claim_C5_wait_for_connection_loop.2.2.1 10 3 4 []
     ⟨6, ⟨⟨1, 0, 0⟩, ⟨2, 0, 0⟩, ⟨3, 0, 0⟩⟩⟩ (by decide) (by decide),
   claim_C5_wait_for_connection_loop.2.2.2.1 10 3 4 []
     ⟨2, ⟨⟨1, 0, 0⟩, ⟨2, 0, 0⟩, ⟨3, 0, 0⟩⟩⟩ (by decide) (by decide),
   claim_C5_wait_for_connection_loop.2.2.2.2.1 10 3 4 []
     ⟨4, ⟨⟨1, 0, 0⟩, ⟨2, 0, 0⟩, ⟨3, 0, 0⟩⟩⟩ (by decide) (by decide) (by decide),
   claim_C5_wait_for_connection_loop.2.2.2.2.2.1 10 3 4 [] (by decide),
   claim_C5_wait_for_connection_loop.2.2.2.2.2.2 10 3 4 [] (by decide)⟩

-- ---------------------------------------------------------------------------
-- C6
-- ---------------------------------------------------------------------------

/-- C6 counterexample: `Session::subscribe_for_events` (src/session.rs) keeps
no subscription state and performs no already-subscribed check, so a second
call with no intervening unsubscribe behaves exactly like the first: it
invokes the external `CorsairSubscribeForEvents` again and (on native success,
code 0) returns `Ok` — it neither fails with an already-subscribed error nor
refrains from registering a second trampoline. -/
theorem claim_C6_counterexample :
    SessionApi.Session.subscribe_for_events 0 =
      ([.corsairSubscribeForEvents], .ok ()) ∧
    (SessionApi.Session.subscribe_for_events 0,
      SessionApi.Session.subscribe_for_events 0) =
      (([.corsairSubscribeForEvents], .ok ()),
       ([.corsairSubscribeForEvents], .ok ())) :=
  ⟨rfl, rfl⟩

/-- C6 amended: `CueSdkClient::subscribe_for_events` called on a client whose
subscription flag is set fails with the already-subscribed error, makes no
external call and leaves the state unchanged; `Session::subscribe_for_events`
has no such guard — it registers a trampoline with the external service on
every call, whatever came before. -/
theorem claim_C6_already_subscribed_guard :
    (∀ (st : CueSdkClientState) (ffiOk : Bool) (lastError : Option CueSdkError),
      st.is_subscribed_to_events = true →
      CueSdkClient.subscribe_for_events st ffiOk lastError =
        (st, [], .error .AlreadyHaveAnActiveEventSubscriptionError)) ∧
    (∀ code, SessionApi.Session.subscribe_for_events code =
      ([.corsairSubscribeForEvents], SessionApi.check code)) := by
  constructor
  · intro st ffiOk lastError h
    simp [CueSdkClient.subscribe_for_events, h]
  · intro code
    rfl

/-- Witness for the amended C6 on a subscribed client. -/
theorem claim_C6_already_subscribed_guard_witness :
    CueSdkClient.subscribe_for_events ⟨false, true⟩ true none =
      (⟨false, true⟩, [], .error .AlreadyHaveAnActiveEventSubscriptionError) :=
  claim_C6_already_subscribed_guard.1 ⟨false, true⟩ true none (by decide)

-- ---------------------------------------------------------------------------
-- C7
-- ---------------------------------------------------------------------------

set_option maxRecDepth 8192 in
/-- C7 (code-bug evidence): the session-design enumeration trusts the counts
the native service writes back.  With `count = -1`, `-1 as usize` is
`2^64 - 1`, so `Session::get_devices` indexes its 64-slot stack buffer out of
bounds and panics, and `Session::get_led_positions` does the same on its
512-slot buffer; a count one past the buffer size also panics.  In the
client design, `get_leds_for_device_index` given `numberOfLed = -1` builds a
slice of `2^64 - 1` elements over the native led allocation: an out-of-bounds
read.  The claim that these never panic or crash for any native-reported
count is therefore false on the code. -/
theorem claim_C7_untrusted_counts_crash :
    SessionApi.Session.get_devices_marshal (-1)
      (List.replicate SessionApi.CORSAIR_DEVICE_COUNT_MAX ⟨0, [], [], [], 0, 0⟩) =
      .panicked ∧
    SessionApi.Session.get_led_positions_marshal (-1)
      (List.replicate SessionApi.CORSAIR_DEVICE_LEDCOUNT_MAX ⟨0, ⟨0⟩, ⟨0⟩⟩) =
      .panicked ∧
    SessionApi.Session.get_devices_marshal 65
      (List.replicate SessionApi.CORSAIR_DEVICE_COUNT_MAX ⟨0, [], [], [], 0, 0⟩) =
      .panicked ∧
    get_leds_for_device_index (some ⟨-1, []⟩) none 0 = .oobRead := by
  refine ⟨?_, ?_, ?_, ?_⟩ <;> decide

-- ---------------------------------------------------------------------------
-- C8
-- ---------------------------------------------------------------------------

/-- C8 counterexample: in the scenario (count call reports 3 devices, the
device at index 1 reports a negative led count), the result of
`get_all_devices` is not a collection still holding the successfully
converted devices 0 and 2: it is an error value, so the claim as stated is
false at this input. -/
theorem claim_C8_counterexample :
    c8Result ≠ .ok (.ok [c8Device 0, c8Device 2]) ∧
    c8Result = .ok (.error (.GetDeviceAtIndexErrors
      [.DeviceInfoFromFfiError (.InvalidLedsCount (-5))])) := by
  constructor
  · decide
  · decide

/-- C8 amended: in the scenario the result is a single aggregate error
containing exactly the one element error produced at index 1 (the
invalid-led-count error carrying -5); devices 0 and 2 convert successfully
but are discarded — the error value is the whole result — and the element
error does not carry the index. -/
theorem claim_C8_partial_failure_scenario :
    c8Result = .ok (.error (.GetDeviceAtIndexErrors
      [.DeviceInfoFromFfiError (.InvalidLedsCount (-5))])) ∧
    CueSdkClient.get_device_at c8Env 0 = .ok (.ok (c8Device 0)) ∧
    CueSdkClient.get_device_at c8Env 2 = .ok (.ok (c8Device 2)) ∧
    CueSdkClient.get_device_at c8Env 1 =
      .ok (.error (.DeviceInfoFromFfiError (.InvalidLedsCount (-5)))) := by
  refine ⟨?_, ?_, ?_, ?_⟩ <;> decide

-- ---------------------------------------------------------------------------
-- C9
-- ---------------------------------------------------------------------------

/-- C9: every native event whose discriminant is neither
`CEI_DeviceConnectionStatusChangedEvent` (1) nor `CEI_KeyEvent` (2) parses to
`none` in `Event::from_ffi`, and the event trampoline then delivers nothing
into the channel — the event is silently dropped, no error value is produced
anywhere, and both functions are total (no crash). -/
theorem claim_C9_unrecognized_event_dropped :
    ∀ (ev : SessionApi.CorsairEvent), ev.id ≠ 1 → ev.id ≠ 2 →
      SessionApi.Event.from_ffi ev = none ∧
      ∀ delivered, SessionApi.event_trampoline delivered ev = delivered := by
  intro ev h1 h2
  have hf : SessionApi.Event.from_ffi ev = none := by
    unfold SessionApi.Event.from_ffi
    split
    · simp_all
    · simp_all
    · rfl
  refine ⟨hf, ?_⟩
  intro delivered
  simp [SessionApi.event_trampoline, hf]

/-- Witness for C9 at the unrecognized discriminant 999. -/
theorem claim_C9_unrecognized_event_dropped_witness :
    SessionApi.Event.from_ffi ⟨999, ⟨[1], true⟩, ⟨[1], 3, true⟩⟩ = none ∧
    SessionApi.event_trampoline [] ⟨999, ⟨[1], true⟩, ⟨[1], 3, true⟩⟩ = [] :=
  ⟨(claim_C9_unrecognized_event_dropped ⟨999, ⟨[1], true⟩, ⟨[1], 3, true⟩⟩
      (by decide) (by decide)).1,
   (claim_C9_unrecognized_event_dropped ⟨999, ⟨[1], true⟩, ⟨[1], 3, true⟩⟩
      (by decide) (by decide)).2 []⟩

-- ---------------------------------------------------------------------------
-- C10
-- ---------------------------------------------------------------------------

/-- C10: `MacroKeyId::from_ffi` recognizes exactly the 20 identifiers 1..20;
a native event with the recognized key-event discriminant (2) but a keyId
that `MacroKeyId::from_ffi` rejects makes `Event::from_ffi` return `none`, so
the whole event is silently dropped by the trampoline exactly like an
unrecognized discriminant — not delivered, not reported as an error. -/
theorem claim_C10_unknown_key_id_event_dropped :
    (∀ (n : Nat), SessionApi.MacroKeyId.from_ffi n = none ↔ (n = 0 ∨ 21 ≤ n)) ∧
    (∀ (ev : SessionApi.CorsairEvent), ev.id = 2 →
      SessionApi.MacroKeyId.from_ffi ev.keyEvent.keyId = none →
      SessionApi.Event.from_ffi ev = none ∧
      ∀ delivered, SessionApi.event_trampoline delivered ev = delivered) := by
  constructor
  · intro n
    constructor
    · intro h
      by_contra hc
      push_neg at hc
      obtain ⟨hc1, hc2⟩ := hc
      have hlow : 1 ≤ n := by omega
      have hhigh : n ≤ 20 := by omega
      interval_cases n <;> simp_all [SessionApi.MacroKeyId.from_ffi]
    · intro h
      rcases h with h | h
      · subst h
        rfl
      · obtain ⟨m, rfl⟩ : ∃ m, n = m + 21 := ⟨n - 21, by omega⟩
        rfl
  · intro ev hid hkey
    have hf : SessionApi.Event.from_ffi ev = none := by
      simp [SessionApi.Event.from_ffi, hid, hkey]
    refine ⟨hf, ?_⟩
    intro delivered
    simp [SessionApi.event_trampoline, hf]

/-- Witness for C10 at the recognized key-event discriminant with the unknown
key id 999. -/
theorem claim_C10_unknown_key_id_event_dropped_witness :
    (SessionApi.MacroKeyId.from_ffi 999 = none ↔ (999 = 0 ∨ 21 ≤ 999)) ∧
    SessionApi.Event.from_ffi ⟨2, ⟨[1], true⟩, ⟨[1], 999, true⟩⟩ = none ∧
    SessionApi.event_trampoline [] ⟨2, ⟨[1], true⟩, ⟨[1], 999, true⟩⟩ = [] :=
  ⟨claim_C10_unknown_key_id_event_dropped.1 999,
   (claim_C10_unknown_key_id_event_dropped.2 ⟨2, ⟨[1], true⟩, ⟨[1], 999, true⟩⟩
      (by decide) (by decide)).1,
   (claim_C10_unknown_key_id_event_dropped.2 ⟨2, ⟨[1], true⟩, ⟨[1], 999, true⟩⟩
      (by decide) (by decide)).2 []⟩
